import Mathlib

/-!
Verification of the quickwit actor runtime sample against its specification.

The Rust sources embedded here:
- `quickwit-actors/src/actor.rs` (ActorExitStatus, ActorContext, sleep/WakeUp,
  exit and kill-switch activation, the protected send helpers);
- `quickwit-indexing/src/actors/indexing_pipeline.rs` (retry backoff,
  health aggregation, Supervise/Spawn handlers, terminate);
- `quickwit-common/src/metrics.rs` (gauge guards).

Support types whose defining files are not part of the sample
(`ActorState`/`AtomicState`, `KillSwitch`, `Progress`, `IndexingStatistics`)
are modelled from the specification; each such definition says so in its
doc comment.
-/

namespace Quickwit

/-- `ActorExitStatus` from `actor.rs`: Success, Quit, DownstreamClosed,
Killed, Failure(cause) and Panicked. The `anyhow::Error` payload of
`Failure` is opaque to the runtime; it is abstracted as a `Nat` tag. -/
inductive ActorExitStatus where
  | success
  | quit
  | downstreamClosed
  | killed
  | failure (cause : Nat)
  | panicked
  deriving DecidableEq, Repr

/-- `ActorExitStatus::is_success` from `actor.rs`:
`matches!(self, ActorExitStatus::Success)`. -/
def ActorExitStatus.is_success : ActorExitStatus → Bool
  | .success => true
  | _ => false

/-- Modelled from the spec: `ActorState` — atomic enum
{Idle, Processing, Paused, Success, Failure} (`actor_state.rs` is not part
of the sample sources). -/
inductive ActorState where
  | idle
  | processing
  | paused
  | success
  | failure
  deriving DecidableEq, Repr

/-- Modelled from the spec: a state is terminal when it is Success or
Failure ("any non-terminal → Success|Failure (terminal)"). -/
def ActorState.isTerminal : ActorState → Bool
  | .success => true
  | .failure => true
  | _ => false

/-- Modelled from the spec: the `pause` transition of `AtomicState`
("Idle/Processing → Paused"); terminal states do not move. -/
def ActorState.pauseTransition : ActorState → ActorState
  | .idle => .paused
  | .processing => .paused
  | s => s

/-- Modelled from the spec: the `resume` transition of `AtomicState`
("Paused → Idle/Processing"); any state other than Paused is unchanged,
so `Resume` on a non-paused actor is a no-op. -/
def ActorState.resumeTransition : ActorState → ActorState
  | .paused => .processing
  | s => s

/-- Modelled from the spec: the `exit` transition of `AtomicState`
(called by `ActorContext::exit` as `self.actor_state.exit(is_success)`):
the state becomes terminal Success when the flag holds, terminal Failure
otherwise. -/
def ActorState.exitTransition (success_flag : Bool) (_s : ActorState) : ActorState :=
  if success_flag then .success else .failure

/-- Modelled from the spec: `KillSwitch` — a latched shared boolean
(`kill_switch.rs` is not part of the sample sources). -/
structure KillSwitch where
  killed : Bool
  deriving DecidableEq, Repr

/-- Modelled from the spec: `KillSwitch::kill` latches the switch. -/
def KillSwitch.kill (_k : KillSwitch) : KillSwitch :=
  { killed := true }

/-- Modelled from the spec: `KillSwitch::child` — "a child inherits its
parent's killed state". -/
def KillSwitch.child (k : KillSwitch) : KillSwitch :=
  { killed := k.killed }

/-- `should_activate_kill_switch` from `actor.rs`: true exactly for
DownstreamClosed, Failure and Panicked; false for Success, Quit and
Killed. -/
def should_activate_kill_switch (exit_status : ActorExitStatus) : Bool :=
  match exit_status with
  | .downstreamClosed => true
  | .failure _ => true
  | .panicked => true
  | .success => false
  | .quit => false
  | .killed => false

/-- The per-actor context state touched by `ActorContext::exit`: the
atomic actor state and the actor's kill switch. -/
structure ExitCtx where
  actor_state : ActorState
  kill_switch : KillSwitch
  deriving DecidableEq, Repr

/-- `ActorContext::exit` from `actor.rs`: records the terminal state via
`actor_state.exit(is_success)`, then activates the kill switch when
`should_activate_kill_switch` holds (the log lines carry no state). -/
def ActorContextExit (exit_status : ActorExitStatus) (c : ExitCtx) : ExitCtx :=
  let c1 : ExitCtx :=
    { c with actor_state := c.actor_state.exitTransition exit_status.is_success }
  if should_activate_kill_switch exit_status then
    { c1 with kill_switch := c1.kill_switch.kill }
  else
    c1

/-! ### Retry backoff (`indexing_pipeline.rs`) -/

/-- `MAX_RETRY_DELAY` from `indexing_pipeline.rs`, in seconds. -/
def MAX_RETRY_DELAY : Nat := 600

/-- `wait_duration_before_retry` from `indexing_pipeline.rs`, with
durations in seconds and `usize`/`u32` arithmetic made explicit:
`retry_count as u32` truncates modulo 2^32, the `+ 1` is a wrapping u32
addition, `.min(31)` caps the exponent, and the `u64` power is clamped by
`MAX_RETRY_DELAY`. -/
def wait_duration_before_retry (retry_count : Nat) : Nat :=
  let max_power := min ((retry_count % 2 ^ 32 + 1) % 2 ^ 32) 31
  min (2 ^ max_power) MAX_RETRY_DELAY

/-! ### Sleep / WakeUp (`actor.rs`) -/

/-- The slice of `ActorContextInner` that `sleep`, `resume` and the
`WakeUp` handler read and write: the atomic actor state and the
`sleep_count` counter. -/
structure SleepCtx where
  actor_state : ActorState
  sleep_count : Nat
  deriving DecidableEq, Repr

/-- The internal `WakeUp` message of `actor.rs`, carrying the
`sleep_count` generation it targets. -/
structure WakeUp where
  sleep_count : Nat
  deriving DecidableEq, Repr

/-- A self-message registered with the scheduler by
`schedule_self_msg(sleep_duration, WakeUp { sleep_count })`: the delivery
delay and the payload. -/
structure ScheduledWakeUp where
  after_duration : Nat
  message : WakeUp
  deriving DecidableEq, Repr

/-- `ActorContext::sleep` from `actor.rs`: increment `sleep_count` (the
incremented value is the generation), call `self.pause()`, and schedule a
`WakeUp` carrying that generation after `sleep_duration`. -/
def ActorContextSleep (sleep_duration : Nat) (c : SleepCtx) :
    SleepCtx × ScheduledWakeUp :=
  let sleep_count := c.sleep_count + 1
  ({ actor_state := c.actor_state.pauseTransition, sleep_count := sleep_count },
   { after_duration := sleep_duration, message := { sleep_count := sleep_count } })

/-- The `Handler<WakeUp>` blanket implementation from `actor.rs`: resume
only when the current `sleep_count` equals the generation carried by the
message; otherwise do nothing. -/
def handleWakeUp (message : WakeUp) (c : SleepCtx) : SleepCtx :=
  let current_sleep_count := c.sleep_count
  if current_sleep_count = message.sleep_count then
    { c with actor_state := c.actor_state.resumeTransition }
  else
    c

/-- A manual `Resume` command: `ActorContext::resume` moves the state out
of Paused and bumps no counter. -/
def resumeCommand (c : SleepCtx) : SleepCtx :=
  { c with actor_state := c.actor_state.resumeTransition }

/-! ### Indexing pipeline (`indexing_pipeline.rs`) -/

/-- Modelled from the spec: `HEARTBEAT` (default 3 s), the watchdog
period and supervisor cadence (`quickwit_actors::HEARTBEAT` is defined
outside the sample sources). In seconds. -/
def HEARTBEAT : Nat := 3

/-- `Health` from the actor runtime: Healthy, Success or
FailureOrUnhealthy. -/
inductive Health where
  | healthy
  | success
  | failureOrUnhealthy
  deriving DecidableEq, Repr

/-- Modelled from the spec: `IndexingStatistics` (defined in `models/`,
outside the sample sources), restricted to the two fields the pipeline
supervisor reads and writes: `generation` and `num_spawn_attempts`. -/
structure IndexingStatistics where
  generation : Nat
  num_spawn_attempts : Nat
  deriving DecidableEq, Repr

/-- A child actor handle, abstracted to what the supervisor consumes
through the `Supervisable` contract: its current health report. -/
structure ActorHandleModel where
  health : Health
  deriving DecidableEq, Repr

/-- `IndexingPipelineHandles` from `indexing_pipeline.rs`: the eight
child handles of the pipeline. -/
structure IndexingPipelineHandles where
  source : ActorHandleModel
  doc_processor : ActorHandleModel
  indexer : ActorHandleModel
  index_serializer : ActorHandleModel
  packager : ActorHandleModel
  uploader : ActorHandleModel
  sequencer : ActorHandleModel
  publisher : ActorHandleModel
  deriving DecidableEq, Repr

/-- The `IndexingPipeline` actor state from `indexing_pipeline.rs`
(the immutable `params` field, which the supervision logic never
mutates, is omitted). -/
structure IndexingPipeline where
  previous_generations_statistics : IndexingStatistics
  statistics : IndexingStatistics
  handles : Option IndexingPipelineHandles
  kill_switch : KillSwitch
  deriving DecidableEq, Repr

/-- `IndexingPipeline::supervisables`: the eight child handles in
declaration order when handles are present, the empty list otherwise. -/
def IndexingPipeline.supervisables (p : IndexingPipeline) :
    List ActorHandleModel :=
  match p.handles with
  | some handles =>
    [handles.source, handles.doc_processor, handles.indexer,
     handles.index_serializer, handles.packager, handles.uploader,
     handles.sequencer, handles.publisher]
  | none => []

/-- The consolidation step of `IndexingPipeline::healthcheck`: partition
the children's health reports into healthy / failed-or-unhealthy /
success buckets, then return FailureOrUnhealthy if the failure bucket is
non-empty, Success if additionally no child is healthy, and Healthy
otherwise. -/
def consolidate_health (healths : List Health) : Health :=
  let healthy_actors := healths.filter (· == Health.healthy)
  let failure_or_unhealthy_actors := healths.filter (· == Health.failureOrUnhealthy)
  if ¬ failure_or_unhealthy_actors.isEmpty then
    Health.failureOrUnhealthy
  else if healthy_actors.isEmpty then
    Health.success
  else
    Health.healthy

/-- `IndexingPipeline::healthcheck` from `indexing_pipeline.rs`:
consolidate the health of all supervisables. -/
def IndexingPipeline.healthcheck (p : IndexingPipeline) : Health :=
  consolidate_health (p.supervisables.map ActorHandleModel.health)

/-- The children of the pipeline, used to record which handles
`terminate` force-kills. -/
inductive Child where
  | source
  | doc_processor
  | indexer
  | index_serializer
  | packager
  | uploader
  | sequencer
  | publisher
  deriving DecidableEq, Repr

/-- The externally visible actions the pipeline handlers perform besides
mutating their own state: scheduling self-messages and force-killing
child handles. -/
inductive PipelineEffect where
  | schedule_spawn (after_duration : Nat) (retry_count : Nat)
  | schedule_supervise (after_duration : Nat)
  | kill_child (child : Child)
  deriving DecidableEq, Repr

/-- `IndexingPipeline::terminate` from `indexing_pipeline.rs`: trip the
pipeline kill switch, then — when handles are present — take them,
force-kill (in a `tokio::join!`) the source, indexer, packager, uploader
and publisher handles, and drop the handles. -/
def IndexingPipeline.terminate (p : IndexingPipeline) :
    IndexingPipeline × List PipelineEffect :=
  let p1 := { p with kill_switch := p.kill_switch.kill }
  match p1.handles with
  | some _handlers =>
    ({ p1 with handles := none },
     [.kill_child .source, .kill_child .indexer, .kill_child .packager,
      .kill_child .uploader, .kill_child .publisher])
  | none => (p1, [])

/-- The `Handler<Supervise>` implementation from `indexing_pipeline.rs`:
when handles are present, act on the healthcheck (continue on Healthy,
terminate and schedule `Spawn { retry_count: 0 }` after one heartbeat on
FailureOrUnhealthy, exit with Success on Success); in every non-exiting
path, schedule the next `Supervise` after one heartbeat. -/
def handleSupervise (p : IndexingPipeline) :
    List PipelineEffect × Except ActorExitStatus IndexingPipeline :=
  if p.handles.isSome then
    match p.healthcheck with
    | .healthy =>
      ([PipelineEffect.schedule_supervise HEARTBEAT], Except.ok p)
    | .failureOrUnhealthy =>
      let (p1, effects) := p.terminate
      (effects ++
        [PipelineEffect.schedule_spawn HEARTBEAT 0,
         PipelineEffect.schedule_supervise HEARTBEAT],
       Except.ok p1)
    | .success =>
      ([], Except.error ActorExitStatus.success)
  else
    ([PipelineEffect.schedule_supervise HEARTBEAT], Except.ok p)

/-- The `Spawn` message from `indexing_pipeline.rs`. -/
structure Spawn where
  retry_count : Nat
  deriving DecidableEq, Repr

/-- The ways `IndexingPipeline::spawn_pipeline` can fail, as the `Spawn`
handler distinguishes them: an `anyhow` error that downcasts to
`MetastoreError::IndexDoesNotExist`, or any other error (opaque tag). -/
inductive SpawnError where
  | metastore_index_does_not_exist
  | other (tag : Nat)
  deriving DecidableEq, Repr

/-- `IndexingPipeline::spawn_pipeline` from `indexing_pipeline.rs`,
with the fallible external work (doc-mapper tag fields, metastore
lookup, source loading, child spawning) abstracted into its `outcome`:
it first increments `statistics.num_spawn_attempts` and derives a fresh
child kill switch from the context switch; on success it saves the
current statistics as `previous_generations_statistics`, increments
`statistics.generation` and installs the new handles; on error it
returns the error with those first two mutations already applied. -/
def spawn_pipeline (ctx_kill_switch : KillSwitch)
    (outcome : Except SpawnError IndexingPipelineHandles)
    (p : IndexingPipeline) : IndexingPipeline × Except SpawnError Unit :=
  let p1 := { p with
    statistics :=
      { p.statistics with
        num_spawn_attempts := p.statistics.num_spawn_attempts + 1 },
    kill_switch := ctx_kill_switch.child }
  match outcome with
  | .error e => (p1, Except.error e)
  | .ok new_handles =>
    ({ p1 with
        previous_generations_statistics := p1.statistics,
        statistics :=
          { p1.statistics with generation := p1.statistics.generation + 1 },
        handles := some new_handles },
     Except.ok ())

/-- The `Handler<Spawn>` implementation from `indexing_pipeline.rs`:
return immediately when handles are already present; otherwise record
`1 + retry_count` as the previous generation's spawn-attempt count and
run `spawn_pipeline`. A spawn error downcasting to
`MetastoreError::IndexDoesNotExist` exits the actor with Success;
any other spawn error schedules `Spawn { retry_count + 1 }` after
`wait_duration_before_retry(retry_count)` and returns Ok. -/
def handleSpawn (spawn : Spawn) (ctx_kill_switch : KillSwitch)
    (outcome : Except SpawnError IndexingPipelineHandles)
    (p : IndexingPipeline) :
    List PipelineEffect × Except ActorExitStatus IndexingPipeline :=
  if p.handles.isSome then
    ([], Except.ok p)
  else
    let p1 := { p with
      previous_generations_statistics :=
        { p.previous_generations_statistics with
          num_spawn_attempts := 1 + spawn.retry_count } }
    match spawn_pipeline ctx_kill_switch outcome p1 with
    | (_, Except.error SpawnError.metastore_index_does_not_exist) =>
      ([], Except.error ActorExitStatus.success)
    | (p2, Except.error (SpawnError.other _)) =>
      ([PipelineEffect.schedule_spawn
          (wait_duration_before_retry spawn.retry_count)
          (spawn.retry_count + 1)],
       Except.ok p2)
    | (p2, Except.ok ()) => ([], Except.ok p2)

/-! ### Protected zones around suspending helpers (`actor.rs`) -/

/-- One step of an `ActorContext` helper body, as far as the progress
watchdog is concerned: acquiring the protected-zone guard
(`let _guard = self.protect_zone()`), emitting a debug log, suspending
while awaiting another actor or future, and the guard drop when the body
ends. -/
inductive HelperStep where
  | protect_acquire
  | debug_log
  | await_other_actor
  | protect_release
  deriving DecidableEq, Repr

/-- `ActorContext::send_message`: acquire the guard, log, await
`mailbox.send_message(msg)`, drop the guard on return. -/
def send_message_steps : List HelperStep :=
  [.protect_acquire, .debug_log, .await_other_actor, .protect_release]

/-- `ActorContext::ask`: acquire the guard, log, await
`mailbox.ask(msg)`, drop the guard on return. -/
def ask_steps : List HelperStep :=
  [.protect_acquire, .debug_log, .await_other_actor, .protect_release]

/-- `ActorContext::ask_for_res`: acquire the guard, log, await
`mailbox.ask_for_res(msg)`, drop the guard on return. -/
def ask_for_res_steps : List HelperStep :=
  [.protect_acquire, .debug_log, .await_other_actor, .protect_release]

/-- `ActorContext::send_exit_with_success`: acquire the guard, log,
await `mailbox.send_message(Command::ExitWithSuccess)`, drop the guard
on return. -/
def send_exit_with_success_steps : List HelperStep :=
  [.protect_acquire, .debug_log, .await_other_actor, .protect_release]

/-- `ActorContext::protect_future`: acquire the guard, await the given
future, drop the guard on return. -/
def protect_future_steps : List HelperStep :=
  [.protect_acquire, .await_other_actor, .protect_release]

/-- Modelled from the spec: the progress watchdog treats the actor as
alive unconditionally while a protected-zone guard is held (`Progress`
lives outside the sample sources). This predicate runs a helper body
with the current number of held guards and checks that every suspension
happens while at least one guard is held. -/
def suspensions_protected (depth : Nat) : List HelperStep → Bool
  | [] => true
  | step :: rest =>
    match step with
    | .protect_acquire => suspensions_protected (depth + 1) rest
    | .protect_release => suspensions_protected (depth - 1) rest
    | .await_other_actor => decide (0 < depth) && suspensions_protected depth rest
    | .debug_log => suspensions_protected depth rest

/-! ### Gauge guards (`metrics.rs`) -/

/-- The value of a prometheus `IntGauge`. Prometheus itself is an
external collaborator (opaque per the spec); its `inc`/`dec` contract is
adding and subtracting one. -/
def IntGauge.inc (gauge : Int) : Int := gauge + 1

/-- `IntGauge::dec`: subtract one from the gauge value. -/
def IntGauge.dec (gauge : Int) : Int := gauge - 1

/-- `create_gauge_guard` from `metrics.rs`: increment the gauge and hand
back a guard borrowing it; the effect on the gauge value. -/
def create_gauge_guard (gauge : Int) : Int := IntGauge.inc gauge

/-- The `Drop` impl of `GaugeGuard` from `metrics.rs`: decrement the
borrowed gauge; the effect on the gauge value. -/
def GaugeGuard.drop (gauge : Int) : Int := IntGauge.dec gauge

/-! ### Concrete pipelines used as witnesses -/

/-- Eight child handles that all report terminal Success. -/
def handlesAllSuccess : IndexingPipelineHandles :=
  { source := { health := Health.success }
    doc_processor := { health := Health.success }
    indexer := { health := Health.success }
    index_serializer := { health := Health.success }
    packager := { health := Health.success }
    uploader := { health := Health.success }
    sequencer := { health := Health.success }
    publisher := { health := Health.success } }

/-- Eight child handles where the source failed and the rest are still
healthy. -/
def handlesSourceFailed : IndexingPipelineHandles :=
  { source := { health := Health.failureOrUnhealthy }
    doc_processor := { health := Health.healthy }
    indexer := { health := Health.healthy }
    index_serializer := { health := Health.healthy }
    packager := { health := Health.healthy }
    uploader := { health := Health.healthy }
    sequencer := { health := Health.healthy }
    publisher := { health := Health.healthy } }

/-- A running pipeline whose source child has failed. -/
def pipelineFailed : IndexingPipeline :=
  { previous_generations_statistics := { generation := 0, num_spawn_attempts := 1 }
    statistics := { generation := 1, num_spawn_attempts := 1 }
    handles := some handlesSourceFailed
    kill_switch := { killed := false } }

/-- A running pipeline all of whose children exited successfully. -/
def pipelineSucceeded : IndexingPipeline :=
  { previous_generations_statistics := { generation := 0, num_spawn_attempts := 1 }
    statistics := { generation := 1, num_spawn_attempts := 1 }
    handles := some handlesAllSuccess
    kill_switch := { killed := false } }

/-- A freshly constructed pipeline, before any successful spawn. -/
def pipelineFresh : IndexingPipeline :=
  { previous_generations_statistics := { generation := 0, num_spawn_attempts := 0 }
    statistics := { generation := 0, num_spawn_attempts := 0 }
    handles := none
    kill_switch := { killed := false } }

/-! ## Theorems -/

/-- For any list, filtering on equality with `x` yields the empty list
exactly when the list does not contain `x`. -/
theorem filter_beq_isEmpty_eq_not_contains (x : Health) (l : List Health) :
    (l.filter (· == x)).isEmpty = !(l.contains x) := by
  induction l with
  | nil => rfl
  | cons a t ih =>
    by_cases hax : a = x
    · subst hax
      simp [List.filter_cons, List.contains_cons]
    · have hxa : ¬x = a := fun h => hax h.symm
      simp [List.filter_cons, List.contains_cons, hax, hxa, ih, bne_iff_ne]

/-- Claim C1: `ActorContext::exit` activates the actor's kill switch if
and only if the exit status is DownstreamClosed, Failure or Panicked
(the switch also stays tripped if it already was); for Success and Quit,
`should_activate_kill_switch` is false, so the switch is not touched. -/
theorem exit_activates_kill_switch_iff (exit_status : ActorExitStatus) (c : ExitCtx) :
    ((ActorContextExit exit_status c).kill_switch.killed
        = (c.kill_switch.killed || should_activate_kill_switch exit_status)) ∧
    (should_activate_kill_switch exit_status = true ↔
      exit_status = ActorExitStatus.downstreamClosed ∨
        (∃ cause, exit_status = ActorExitStatus.failure cause) ∨
        exit_status = ActorExitStatus.panicked) ∧
    should_activate_kill_switch ActorExitStatus.success = false ∧
    should_activate_kill_switch ActorExitStatus.quit = false := by
  refine ⟨?_, ?_, rfl, rfl⟩
  · cases exit_status <;>
      simp [ActorContextExit, should_activate_kill_switch, KillSwitch.kill]
  · cases exit_status <;> simp [should_activate_kill_switch]

/-- Claim C8: a Killed exit never activates the kill switch:
`should_activate_kill_switch` returns false for Killed, so `exit` with
status Killed leaves the switch exactly as it was; only
DownstreamClosed, Failure and Panicked return true. -/
theorem killed_exit_does_not_activate_kill_switch :
    should_activate_kill_switch ActorExitStatus.killed = false ∧
    (∀ c : ExitCtx,
      (ActorContextExit ActorExitStatus.killed c).kill_switch.killed
        = c.kill_switch.killed) ∧
    (∀ st : ActorExitStatus, should_activate_kill_switch st = true ↔
      st = ActorExitStatus.downstreamClosed ∨
        (∃ cause, st = ActorExitStatus.failure cause) ∨
        st = ActorExitStatus.panicked) := by
  refine ⟨rfl, ?_, ?_⟩
  · intro c
    simp [ActorContextExit, should_activate_kill_switch]
  · intro st
    cases st <;> simp [should_activate_kill_switch]

/-- Claim C7: every suspending `ActorContext` helper — `send_message`,
`ask`, `ask_for_res`, `send_exit_with_success` and `protect_future` —
acquires the protected-zone guard before its await and releases it only
on return, so the progress watchdog sees at least one held guard at
every suspension point. -/
theorem helpers_suspend_inside_protected_zone :
    suspensions_protected 0 send_message_steps = true ∧
    suspensions_protected 0 ask_steps = true ∧
    suspensions_protected 0 ask_for_res_steps = true ∧
    suspensions_protected 0 send_exit_with_success_steps = true ∧
    suspensions_protected 0 protect_future_steps = true := by
  decide

/-- Claim C10: `create_gauge_guard` increments the gauge by exactly one,
dropping the returned `GaugeGuard` decrements it by exactly one, and a
create-then-drop pair leaves the gauge value unchanged. -/
theorem gauge_guard_inc_dec_balanced (gauge : Int) :
    create_gauge_guard gauge = gauge + 1 ∧
    GaugeGuard.drop gauge = gauge - 1 ∧
    GaugeGuard.drop (create_gauge_guard gauge) = gauge := by
  refine ⟨rfl, rfl, ?_⟩
  simp [create_gauge_guard, GaugeGuard.drop, IntGauge.inc, IntGauge.dec]

/-- Claim C2: `sleep(d)` increments the sleep generation to
`G = sleep_count + 1`, moves the state to Paused, and schedules a
`WakeUp` carrying `G` after `d`; the `WakeUp{gen}` handler resumes
exactly when the current generation equals `gen`, a `WakeUp` with a
stale generation changes nothing, a `WakeUp` arriving once the state has
left Paused (e.g. after a manual Resume) changes nothing, and a manual
Resume bumps no counter. -/
theorem sleep_wake_generation (c : SleepCtx) (d : Nat)
    (h : c.actor_state = ActorState.processing) :
    ((ActorContextSleep d c).1.sleep_count = c.sleep_count + 1) ∧
    ((ActorContextSleep d c).1.actor_state = ActorState.paused) ∧
    ((ActorContextSleep d c).2 =
      { after_duration := d, message := { sleep_count := c.sleep_count + 1 } }) ∧
    (∀ (g : Nat) (t : SleepCtx), t.sleep_count = g →
      handleWakeUp { sleep_count := g } t =
        { t with actor_state := t.actor_state.resumeTransition }) ∧
    (∀ (g : Nat) (t : SleepCtx), t.sleep_count ≠ g →
      handleWakeUp { sleep_count := g } t = t) ∧
    (∀ (g : Nat) (t : SleepCtx), t.actor_state ≠ ActorState.paused →
      handleWakeUp { sleep_count := g } t = t) ∧
    (∀ t : SleepCtx, (resumeCommand t).sleep_count = t.sleep_count) := by
  refine ⟨rfl, ?_, rfl, ?_, ?_, ?_, fun t => rfl⟩
  · simp [ActorContextSleep, h, ActorState.pauseTransition]
  · intro g t ht
    simp [handleWakeUp, ht]
  · intro g t ht
    simp [handleWakeUp, ht]
  · intro g t ht
    obtain ⟨st, cnt⟩ := t
    by_cases hg : cnt = g
    · cases st <;> simp_all [handleWakeUp, ActorState.resumeTransition]
    · simp [handleWakeUp, hg]

/-- Witness for C2 at a concrete context: sleeping from Processing with
counter 0 yields counter 1, state Paused, and a scheduled
`WakeUp { sleep_count := 1 }` after 5; a stale `WakeUp { sleep_count := 1 }`
on a context whose counter is 2 is a no-op. -/
theorem sleep_wake_generation_witness :
    (ActorContextSleep 5 ⟨ActorState.processing, 0⟩).1.sleep_count = 1 ∧
    (ActorContextSleep 5 ⟨ActorState.processing, 0⟩).1.actor_state = ActorState.paused ∧
    handleWakeUp { sleep_count := 1 } ⟨ActorState.processing, 2⟩ =
      ⟨ActorState.processing, 2⟩ :=
  ⟨(sleep_wake_generation ⟨ActorState.processing, 0⟩ 5 rfl).1,
   (sleep_wake_generation ⟨ActorState.processing, 0⟩ 5 rfl).2.1,
   (sleep_wake_generation ⟨ActorState.processing, 0⟩ 5 rfl).2.2.2.2.1 1
     ⟨ActorState.processing, 2⟩ (by decide)⟩

/-- Counterexample to claim C3: the claim fails at
`retry_count = 2^32`. The `retry_count as u32` cast truncates modulo
2^32, so the code computes an exponent of 1 and returns 2 seconds,
whereas `min(2^(n+1) s, 600 s)` is 600 seconds. -/
theorem wait_duration_before_retry_cast_counterexample :
    wait_duration_before_retry (2 ^ 32) = 2 ∧
    min (2 ^ (2 ^ 32 + 1)) 600 = 600 ∧ (2 : Nat) ≠ 600 := by
  refine ⟨by decide, ?_, by decide⟩
  have h600 : (600 : Nat) ≤ 2 ^ (2 ^ 32 + 1) := by
    calc (600 : Nat) ≤ 2 ^ 10 := by norm_num
      _ ≤ 2 ^ (2 ^ 32 + 1) := Nat.pow_le_pow_right (by norm_num) (by norm_num)
  exact Nat.min_eq_right h600

/-- Claim C3, amended: for every retry count `n` with `n + 1 < 2^32`
(so the `u32` conversion is exact), `wait_duration_before_retry n`
equals `min(2^(n+1) s, 600 s)`; in particular it returns 2, 4, 8, 16,
512 and 600 seconds for n = 0, 1, 2, 3, 8 and 9; and the exponent is
capped at 31, so the `u64` power computation never overflows for any
retry count. -/
theorem wait_duration_before_retry_spec (n : Nat) (h : n + 1 < 2 ^ 32) :
    wait_duration_before_retry n = min (2 ^ (n + 1)) 600 ∧
    wait_duration_before_retry 0 = 2 ∧
    wait_duration_before_retry 1 = 4 ∧
    wait_duration_before_retry 2 = 8 ∧
    wait_duration_before_retry 3 = 16 ∧
    wait_duration_before_retry 8 = 512 ∧
    wait_duration_before_retry 9 = 600 ∧
    (∀ m : Nat, 2 ^ min ((m % 2 ^ 32 + 1) % 2 ^ 32) 31 < 2 ^ 64) := by
  refine ⟨?_, by decide, by decide, by decide, by decide, by decide, by decide, ?_⟩
  · have h1 : n % 2 ^ 32 = n := Nat.mod_eq_of_lt (by omega)
    have h2 : (n + 1) % 2 ^ 32 = n + 1 := Nat.mod_eq_of_lt h
    simp only [wait_duration_before_retry, MAX_RETRY_DELAY, h1, h2]
    rcases le_or_lt (n + 1) 31 with hle | hlt
    · rw [Nat.min_eq_left hle]
    · rw [Nat.min_eq_right (le_of_lt hlt)]
      have e1 : min (2 ^ 31) 600 = 600 := Nat.min_eq_right (by norm_num)
      have e2 : min (2 ^ (n + 1)) 600 = 600 :=
        Nat.min_eq_right
          (le_trans (by norm_num : (600 : Nat) ≤ 2 ^ 31)
            (Nat.pow_le_pow_right (by norm_num) (by omega)))
      rw [e1, e2]
  · intro m
    have hcap : min ((m % 2 ^ 32 + 1) % 2 ^ 32) 31 ≤ 31 := Nat.min_le_right _ _
    calc 2 ^ min ((m % 2 ^ 32 + 1) % 2 ^ 32) 31
        ≤ 2 ^ 31 := Nat.pow_le_pow_right (by norm_num) hcap
      _ < 2 ^ 64 := by norm_num

/-- Witness for the amended C3 at `n = 9`: the hypothesis `9 + 1 < 2^32`
holds and the backoff is `min(2^10 s, 600 s) = 600 s`. -/
theorem wait_duration_before_retry_spec_witness :
    wait_duration_before_retry 9 = min (2 ^ 10) 600 :=
  (wait_duration_before_retry_spec 9 (by norm_num)).1

/-- Claim C4: `healthcheck` returns FailureOrUnhealthy exactly when some
child reports FailureOrUnhealthy, Success when no child reports
FailureOrUnhealthy and none reports Healthy, and Healthy otherwise; the
`Supervise` handler on FailureOrUnhealthy terminates the subtree and
schedules `Spawn { retry_count := 0 }` after one heartbeat, and on
Success exits the supervisor with `ActorExitStatus::Success`. -/
theorem supervise_health_aggregation :
    (∀ healths : List Health,
      consolidate_health healths =
        if healths.contains Health.failureOrUnhealthy then Health.failureOrUnhealthy
        else if healths.contains Health.healthy then Health.healthy
        else Health.success) ∧
    (∀ p : IndexingPipeline, p.handles.isSome = true →
      p.healthcheck = Health.failureOrUnhealthy →
      handleSupervise p =
        ((p.terminate).2 ++
          [PipelineEffect.schedule_spawn HEARTBEAT 0,
           PipelineEffect.schedule_supervise HEARTBEAT],
         Except.ok (p.terminate).1)) ∧
    (∀ p : IndexingPipeline, p.handles.isSome = true →
      p.healthcheck = Health.success →
      handleSupervise p = ([], Except.error ActorExitStatus.success)) := by
  refine ⟨?_, ?_, ?_⟩
  · intro healths
    simp only [consolidate_health]
    rw [filter_beq_isEmpty_eq_not_contains, filter_beq_isEmpty_eq_not_contains]
    by_cases hf : healths.contains Health.failureOrUnhealthy
    · simp [hf]
    · by_cases hh : healths.contains Health.healthy
      · simp [hf, hh]
      · simp [hf, hh]
  · intro p hsome hfail
    rcases hpt : p.terminate with ⟨p1, effects⟩
    simp [handleSupervise, hsome, hfail, hpt]
  · intro p hsome hsucc
    simp [handleSupervise, hsome, hsucc]

/-- Witness for C4: on the concrete pipeline with a failed source the
`Supervise` handler terminates and reschedules a spawn; on the pipeline
whose children all succeeded it exits with Success. -/
theorem supervise_health_aggregation_witness :
    handleSupervise pipelineFailed =
      ((pipelineFailed.terminate).2 ++
        [PipelineEffect.schedule_spawn HEARTBEAT 0,
         PipelineEffect.schedule_supervise HEARTBEAT],
       Except.ok (pipelineFailed.terminate).1) ∧
    handleSupervise pipelineSucceeded = ([], Except.error ActorExitStatus.success) :=
  ⟨supervise_health_aggregation.2.1 pipelineFailed (by decide) (by decide),
   supervise_health_aggregation.2.2 pipelineSucceeded (by decide) (by decide)⟩

/-- Claim C5: when the pipeline holds no handles, a spawn error that
downcasts to `MetastoreError::IndexDoesNotExist` makes the `Spawn`
handler exit with `ActorExitStatus::Success` and schedule nothing, while
any other spawn error schedules `Spawn { retry_count + 1 }` to itself
after `wait_duration_before_retry(retry_count)` and returns Ok. -/
theorem spawn_error_retry_or_success (spawn : Spawn) (ks : KillSwitch)
    (p : IndexingPipeline) (h : p.handles = none) :
    (handleSpawn spawn ks (Except.error SpawnError.metastore_index_does_not_exist) p =
      ([], Except.error ActorExitStatus.success)) ∧
    (∀ tag : Nat, ∃ p2 : IndexingPipeline,
      handleSpawn spawn ks (Except.error (SpawnError.other tag)) p =
        ([PipelineEffect.schedule_spawn
            (wait_duration_before_retry spawn.retry_count)
            (spawn.retry_count + 1)],
         Except.ok p2)) := by
  obtain ⟨pg, st, hd, ksw⟩ := p
  cases h
  exact ⟨rfl, fun tag => ⟨_, rfl⟩⟩

/-- Witness for C5 at a fresh pipeline: the missing-index error exits
with Success, and an opaque error at retry count 0 schedules
`Spawn { retry_count := 1 }` after `wait_duration_before_retry 0`. -/
theorem spawn_error_retry_or_success_witness :
    (handleSpawn { retry_count := 0 } { killed := false }
        (Except.error SpawnError.metastore_index_does_not_exist) pipelineFresh =
      ([], Except.error ActorExitStatus.success)) ∧
    (∃ p2 : IndexingPipeline,
      handleSpawn { retry_count := 0 } { killed := false }
          (Except.error (SpawnError.other 7)) pipelineFresh =
        ([PipelineEffect.schedule_spawn (wait_duration_before_retry 0) 1],
         Except.ok p2)) :=
  ⟨(spawn_error_retry_or_success { retry_count := 0 } { killed := false }
      pipelineFresh rfl).1,
   (spawn_error_retry_or_success { retry_count := 0 } { killed := false }
      pipelineFresh rfl).2 7⟩

/-- Counterexample to claim C6: on a concrete running pipeline,
`terminate` force-kills only the source, indexer, packager, uploader and
publisher handles; the doc processor, index serializer and sequencer
handles are not among the force-killed children, contradicting the
claim that all eight are. -/
theorem terminate_missing_children_counterexample :
    (pipelineFailed.terminate).2 =
      [PipelineEffect.kill_child Child.source,
       PipelineEffect.kill_child Child.indexer,
       PipelineEffect.kill_child Child.packager,
       PipelineEffect.kill_child Child.uploader,
       PipelineEffect.kill_child Child.publisher] ∧
    PipelineEffect.kill_child Child.doc_processor ∉ (pipelineFailed.terminate).2 ∧
    PipelineEffect.kill_child Child.index_serializer ∉ (pipelineFailed.terminate).2 ∧
    PipelineEffect.kill_child Child.sequencer ∉ (pipelineFailed.terminate).2 := by
  decide

/-- Claim C6, amended: `IndexingPipeline::terminate` first trips the
subtree kill switch, then — when handles are present — force-kills in
parallel five of the eight children (source, indexer, packager,
uploader, publisher; the doc processor, index serializer and sequencer
handles are not explicitly killed), and then drops the handles. -/
theorem terminate_kills_five_children (p : IndexingPipeline) :
    ((p.terminate).1.kill_switch.killed = true) ∧
    ((p.terminate).1.handles = none) ∧
    (∀ hd : IndexingPipelineHandles, p.handles = some hd →
      (p.terminate).2 =
        [PipelineEffect.kill_child Child.source,
         PipelineEffect.kill_child Child.indexer,
         PipelineEffect.kill_child Child.packager,
         PipelineEffect.kill_child Child.uploader,
         PipelineEffect.kill_child Child.publisher]) ∧
    (p.handles = none → (p.terminate).2 = []) := by
  obtain ⟨pg, st, hd, ksw⟩ := p
  cases hd <;> simp [IndexingPipeline.terminate, KillSwitch.kill]

/-- Witness for the amended C6: terminating the concrete failed pipeline
kills exactly the five explicitly killed children. -/
theorem terminate_kills_five_children_witness :
    (pipelineFailed.terminate).2 =
      [PipelineEffect.kill_child Child.source,
       PipelineEffect.kill_child Child.indexer,
       PipelineEffect.kill_child Child.packager,
       PipelineEffect.kill_child Child.uploader,
       PipelineEffect.kill_child Child.publisher] :=
  (terminate_kills_five_children pipelineFailed).2.2.1 handlesSourceFailed rfl

/-- Claim C9: handling `Spawn` while the pipeline already holds live
child handles returns Ok immediately with no effects and leaves the
whole pipeline state — statistics, previous-generation statistics,
handles and kill switch — unchanged. -/
theorem spawn_noop_when_handles_present (spawn : Spawn) (ks : KillSwitch)
    (outcome : Except SpawnError IndexingPipelineHandles) (p : IndexingPipeline)
    (hd : IndexingPipelineHandles) (h : p.handles = some hd) :
    handleSpawn spawn ks outcome p = ([], Except.ok p) := by
  simp [handleSpawn, h]

/-- Witness for C9: a `Spawn` retry arriving at the concrete running
pipeline is a no-op. -/
theorem spawn_noop_when_handles_present_witness :
    handleSpawn { retry_count := 0 } { killed := false }
        (Except.error (SpawnError.other 0)) pipelineFailed =
      ([], Except.ok pipelineFailed) :=
  spawn_noop_when_handles_present { retry_count := 0 } { killed := false }
    (Except.error (SpawnError.other 0)) pipelineFailed handlesSourceFailed rfl

end Quickwit
